import Mathlib

/-!
Shallow embedding of the keystone UUID token provider
(`keystone/token/providers/uuid.py`): the `V3TokenDataHelper` token-data
assembler and the `Provider` issue/validate/check/revoke operations, together
with theorems settling the specification claims about them.

Python dictionaries with optional keys are modelled as structures with
`Option` fields; collaborator APIs (identity, catalog, trust, token store)
are modelled as explicit environment values; exceptions become an `Err`
error type threaded through `Except`.
-/

namespace Keystone

/-- Truthiness of an optional string, as Python evaluates `if s:` —
`None` and the empty string are falsy. -/
def strTruthy : Option String → Bool
  | none => false
  | some s => s != ""

/-- A role record, as returned by `identity_api.get_role` (projection to the
two fields the provider reads). -/
structure Role where
  id : String
  name : String
deriving DecidableEq

/-- A role entry inside a trust's delegated role list; the provider only reads
its `id`. -/
structure TrustRole where
  id : String
deriving DecidableEq

/-- A trust (delegation) record as returned by `trust_api.get_trust`. -/
structure TrustRef where
  id : String
  trustor_user_id : String
  trustee_user_id : String
  impersonation : Bool
  project_id : Option String
  roles : List TrustRole
deriving DecidableEq

/-- A domain record from `identity_api.get_domain`. -/
structure DomainRef where
  id : String
  name : String
deriving DecidableEq

/-- A project record from `identity_api.get_project`. -/
structure ProjectRef where
  id : String
  name : String
  domain_id : String
deriving DecidableEq

/-- A user record from `identity_api.get_user`. -/
structure UserRef where
  id : String
  name : String
  domain_id : String
  enabled : Bool
deriving DecidableEq

/-- The filtered domain projection built by `_get_filtered_domain`. -/
structure FilteredDomain where
  id : String
  name : String
deriving DecidableEq

/-- The filtered project projection built by `_get_filtered_project`. -/
structure FilteredProject where
  id : String
  name : String
  domain : FilteredDomain
deriving DecidableEq

/-- The filtered user projection built by `_populate_user`. -/
structure FilteredUser where
  id : String
  name : String
  domain : FilteredDomain
deriving DecidableEq

/-- The `OS-TRUST:trust` block attached to the token data. -/
structure TrustBlock where
  id : String
  trustor_user_id : String
  trustee_user_id : String
  impersonation : Bool
deriving DecidableEq

/-- Service catalog entries (region, service type, endpoint); the provider
treats the catalog as opaque data. -/
abbrev Catalog := List (String × String × String)

/-- Opaque `extras` mapping carried through from the auth context. -/
abbrev Extras := List (String × String)

/-- The token data dictionary assembled by `V3TokenDataHelper.get_token_data`.
Each optional field models presence of the corresponding dictionary key;
`os_trust` models the `OS-TRUST:trust` key. -/
structure TokenData where
  methods : Option (List String) := none
  extras : Option Extras := none
  user : Option FilteredUser := none
  domain : Option FilteredDomain := none
  project : Option FilteredProject := none
  roles : Option (List Role) := none
  catalog : Option Catalog := none
  os_trust : Option TrustBlock := none
  expires_at : Option String := none
  issued_at : Option String := none
deriving DecidableEq

/-- The `expires` argument: either an ISO string or a datetime value
(datetimes are modelled as `Nat`). -/
inductive Expiry where
  | str (s : String)
  | time (t : Nat)
deriving DecidableEq

/-- Errors (Python exceptions) the provider can surface. -/
inductive Err where
  | notFound (what : String)
  | tokenNotFound
  | forbidden (msg : String)
  | unauthorized (msg : String)
  | unsupportedTokenVersion
  | assertionFailed
  | typeError
  | keyError
  | storageFailure
deriving DecidableEq

/-- Message of the `Forbidden` raised when the trustor user is disabled. -/
def trustorDisabledMsg : String := "Trustor is disabled."

/-- Message of the `Forbidden` raised when the caller is not the trustee. -/
def userNotTrusteeMsg : String := "User is not a trustee."

/-- Message of the `Forbidden` raised when a delegated role is unmatched. -/
def trusteeNoRolesMsg : String := "Trustee have no delegated roles."

/-- Message of the `Unauthorized` raised on an empty role set for a project
scope. -/
def noAccessProjectMsg (user_id project_id : String) : String :=
  "User " ++ user_id ++ " have no access to project " ++ project_id

/-- Message of the `Unauthorized` raised on an empty role set for a domain
scope. -/
def noAccessDomainMsg (user_id domain_id : String) : String :=
  "User " ++ user_id ++ " have no access to domain " ++ domain_id

/-- Message wrapped into the `Unauthorized` raised when validation cannot
find the token. -/
def couldNotFindTokenMsg : String := "Could not find token"

/-- The collaborator environment: identity directory, catalog directory,
trust store, configuration and time sources. A catalog lookup returning
`none` models the catalog backend raising `NotImplemented`. -/
structure Env where
  trust_enabled : Bool
  users : List UserRef
  domains : List DomainRef
  projects : List ProjectRef
  role_refs : List Role
  trusts : List TrustRef
  roles_for_user_and_domain : String → String → List String
  roles_for_user_and_project : String → String → List String
  get_v3_catalog : String → Option String → Option Catalog
  now_iso : String
  isotime : Nat → String
  parse_norm : String → Nat
  default_expire : Nat
  gen_id : String

/-- Lookup of `identity_api.get_user`. -/
def Env.get_user (env : Env) (user_id : String) : Except Err UserRef :=
  match env.users.find? (fun u => u.id == user_id) with
  | some u => .ok u
  | none => .error (.notFound ("user " ++ user_id))

/-- Lookup of `identity_api.get_domain`. -/
def Env.get_domain (env : Env) (domain_id : String) : Except Err DomainRef :=
  match env.domains.find? (fun d => d.id == domain_id) with
  | some d => .ok d
  | none => .error (.notFound ("domain " ++ domain_id))

/-- Lookup of `identity_api.get_project`. -/
def Env.get_project (env : Env) (project_id : String) : Except Err ProjectRef :=
  match env.projects.find? (fun p => p.id == project_id) with
  | some p => .ok p
  | none => .error (.notFound ("project " ++ project_id))

/-- Lookup of `identity_api.get_role`. -/
def Env.get_role (env : Env) (role_id : String) : Except Err Role :=
  match env.role_refs.find? (fun r => r.id == role_id) with
  | some r => .ok r
  | none => .error (.notFound ("role " ++ role_id))

/-- Lookup of `trust_api.get_trust`. -/
def Env.get_trust (env : Env) (trust_id : String) : Except Err TrustRef :=
  match env.trusts.find? (fun t => t.id == trust_id) with
  | some t => .ok t
  | none => .error (.notFound ("trust " ++ trust_id))

/-- Embedding of `V3TokenDataHelper._get_filtered_domain`. -/
def getFilteredDomain (env : Env) (domain_id : String) :
    Except Err FilteredDomain :=
  match env.get_domain domain_id with
  | .error e => .error e
  | .ok d => .ok { id := d.id, name := d.name }

/-- Embedding of `V3TokenDataHelper._get_filtered_project`. -/
def getFilteredProject (env : Env) (project_id : String) :
    Except Err FilteredProject :=
  match env.get_project project_id with
  | .error e => .error e
  | .ok p =>
    match getFilteredDomain env p.domain_id with
    | .error e => .error e
    | .ok fd => .ok { id := p.id, name := p.name, domain := fd }

/-- The domain half of `_populate_scope`. -/
def populateScopeDomain (env : Env) (td : TokenData)
    (domain_id : Option String) : Except Err TokenData :=
  if strTruthy domain_id then
    match getFilteredDomain env (domain_id.getD "") with
    | .error e => .error e
    | .ok fd => .ok { td with domain := some fd }
  else .ok td

/-- The project half of `_populate_scope`. -/
def populateScopeProject (env : Env) (td : TokenData)
    (project_id : Option String) : Except Err TokenData :=
  if strTruthy project_id then
    match getFilteredProject env (project_id.getD "") with
    | .error e => .error e
    | .ok fp => .ok { td with project := some fp }
  else .ok td

/-- Embedding of `V3TokenDataHelper._populate_scope`: skipped entirely if the
token data already has a `domain` or a `project` key. -/
def populateScope (env : Env) (td : TokenData)
    (domain_id project_id : Option String) : Except Err TokenData :=
  if td.domain.isSome || td.project.isSome then .ok td
  else
    match populateScopeDomain env td domain_id with
    | .error e => .error e
    | .ok td1 => populateScopeProject env td1 project_id

/-- Embedding of the role-ref list comprehension
`[self.identity_api.get_role(role_id) for role_id in roles]`. -/
def getRoleList (env : Env) : List String → Except Err (List Role)
  | [] => .ok []
  | rid :: rest =>
    match env.get_role rid with
    | .error e => .error e
    | .ok r =>
      match getRoleList env rest with
      | .error e => .error e
      | .ok rs => .ok (r :: rs)

/-- Embedding of `V3TokenDataHelper._get_roles_for_user`: a project lookup
overwrites a domain lookup. -/
def getRolesForUser (env : Env) (user_id : String)
    (domain_id project_id : Option String) : Except Err (List Role) :=
  let role_ids : List String := []
  let role_ids :=
    if strTruthy domain_id then
      env.roles_for_user_and_domain user_id (domain_id.getD "")
    else role_ids
  let role_ids :=
    if strTruthy project_id then
      env.roles_for_user_and_project user_id (project_id.getD "")
    else role_ids
  getRoleList env role_ids

/-- The trust block written into the token data for a trust. -/
def trustBlockOf (tr : TrustRef) : TrustBlock :=
  { id := tr.id,
    trustor_user_id := tr.trustor_user_id,
    trustee_user_id := tr.trustee_user_id,
    impersonation := tr.impersonation }

/-- The trust handling inside `_populate_user`: under an enabled trust with
no trust block yet, resolve the trustor (failing if disabled), switch the
displayed user to the trustor under impersonation, and attach the
`OS-TRUST:trust` block. Returns the effective displayed user and the updated
token data. -/
def populateUserTrust (env : Env) (td : TokenData) (user_ref : UserRef)
    (trust : Option TrustRef) : Except Err (UserRef × TokenData) :=
  match trust with
  | some tr =>
    if env.trust_enabled && td.os_trust.isNone then
      match env.get_user tr.trustor_user_id with
      | .error e => .error e
      | .ok trustor_user_ref =>
        if trustor_user_ref.enabled then
          .ok (if tr.impersonation then trustor_user_ref else user_ref,
            { td with os_trust := some (trustBlockOf tr) })
        else .error (.forbidden trustorDisabledMsg)
    else .ok (user_ref, td)
  | none => .ok (user_ref, td)

/-- Embedding of `V3TokenDataHelper._populate_user`. -/
def populateUser (env : Env) (td : TokenData) (user_id : String)
    (domain_id project_id : Option String) (trust : Option TrustRef) :
    Except Err TokenData :=
  if td.user.isSome then .ok td
  else
    match env.get_user user_id with
    | .error e => .error e
    | .ok user_ref =>
      match populateUserTrust env td user_ref trust with
      | .error e => .error e
      | .ok (u, td2) =>
        match getFilteredDomain env u.domain_id with
        | .error e => .error e
        | .ok fd =>
          .ok { td2 with user := some { id := u.id, name := u.name,
                                        domain := fd } }

/-- The (effective user, effective project, effective domain) triple used for
role resolution (`_populate_roles` lines choosing the token ids): under an
enabled trust the trustor and the trust project are used and the domain is
dropped. -/
def effectiveIds (env : Env) (user_id : String)
    (domain_id project_id : Option String) (trust : Option TrustRef) :
    String × Option String × Option String :=
  match trust with
  | some tr =>
    if env.trust_enabled then (tr.trustor_user_id, tr.project_id, none)
    else (user_id, project_id, domain_id)
  | none => (user_id, project_id, domain_id)

/-- Embedding of the trust-role matching loop in `_populate_roles`: each
declared trust role must match a resolved role by id, else `Forbidden`. -/
def matchTrustRoles (roles : List Role) : List TrustRole → Except Err (List Role)
  | [] => .ok []
  | tr :: rest =>
    match roles.filter (fun x => x.id == tr.id) with
    | [] => .error (.forbidden trusteeNoRolesMsg)
    | m :: _ =>
      match matchTrustRoles roles rest with
      | .error e => .error e
      | .ok ms => .ok (m :: ms)

/-- The role filtering of `_populate_roles`: trust-role matching under an
enabled trust, otherwise projection of each role to `{id, name}`. -/
def filterTrustRoles (env : Env) (trust : Option TrustRef)
    (roles : List Role) : Except Err (List Role) :=
  match trust with
  | some tr =>
    if env.trust_enabled then matchTrustRoles roles tr.roles
    else .ok (roles.map (fun r => { id := r.id, name := r.name }))
  | none => .ok (roles.map (fun r => { id := r.id, name := r.name }))

/-- The body of `_populate_roles` once the effective ids are known. -/
def populateRolesScoped (env : Env) (td : TokenData) (user_id : String)
    (token_user_id : String) (token_project_id token_domain_id : Option String)
    (trust : Option TrustRef) : Except Err TokenData :=
  if strTruthy token_domain_id || strTruthy token_project_id then
    match getRolesForUser env token_user_id token_domain_id
        token_project_id with
    | .error e => .error e
    | .ok roles =>
      match filterTrustRoles env trust roles with
      | .error e => .error e
      | .ok filtered_roles =>
        if filtered_roles.isEmpty then
          .error (.unauthorized
            (if strTruthy token_project_id then
              noAccessProjectMsg user_id (token_project_id.getD "")
            else noAccessDomainMsg user_id (token_domain_id.getD "")))
        else .ok { td with roles := some filtered_roles }
  else .ok td

/-- Embedding of `V3TokenDataHelper._populate_roles`. -/
def populateRoles (env : Env) (td : TokenData) (user_id : String)
    (domain_id project_id : Option String) (trust : Option TrustRef) :
    Except Err TokenData :=
  if td.roles.isSome then .ok td
  else
    match effectiveIds env user_id domain_id project_id trust with
    | (token_user_id, token_project_id, token_domain_id) =>
      populateRolesScoped env td user_id token_user_id token_project_id
        token_domain_id trust

/-- The principal used for the catalog lookup: the trustor under an enabled
trust. -/
def catalogUserId (env : Env) (user_id : String) (trust : Option TrustRef) :
    String :=
  match trust with
  | some tr => if env.trust_enabled then tr.trustor_user_id else user_id
  | none => user_id

/-- The catalog value fetched for a scope, with the `NotImplemented`
soft-failure replaced by an empty catalog. -/
def fetchedCatalog (env : Env) (user_id : String)
    (project_id : Option String) : Catalog :=
  match env.get_v3_catalog user_id project_id with
  | some c => c
  | none => ([] : Catalog)

/-- Embedding of `V3TokenDataHelper._populate_service_catalog`; a `none`
catalog lookup models the `NotImplemented` soft-failure, replaced by an
empty catalog. -/
def populateServiceCatalog (env : Env) (td : TokenData) (user_id : String)
    (domain_id project_id : Option String) (trust : Option TrustRef) :
    TokenData :=
  if td.catalog.isSome then td
  else
    if strTruthy project_id || strTruthy domain_id then
      { td with
        catalog := some (fetchedCatalog env (catalogUserId env user_id trust)
          project_id) }
    else td

/-- Embedding of `V3TokenDataHelper._populate_token_dates`: unconditionally
stamps `expires_at` (given expiry, or the configured default, rendered to an
ISO string when it is a datetime) and `issued_at` (now). -/
def populateTokenDates (env : Env) (td : TokenData) (expires : Option Expiry) :
    TokenData :=
  let expires :=
    match expires with
    | none => Expiry.time env.default_expire
    | some (.str s) => if s == "" then Expiry.time env.default_expire
                       else Expiry.str s
    | some (.time t) => Expiry.time t
  let expires_str :=
    match expires with
    | .str s => s
    | .time t => env.isotime t
  { td with expires_at := some expires_str, issued_at := some env.now_iso }

/-- The initial token data of `get_token_data`: methods and extras, plus the
five fields carried through from a prior token when present. -/
def initialTokenData (method_names : Option (List String))
    (extras : Option Extras) (token : Option TokenData) : TokenData :=
  let td : TokenData := { methods := method_names, extras := extras }
  match token with
  | some prior =>
    { td with
      roles := prior.roles, user := prior.user,
      catalog := prior.catalog, project := prior.project,
      domain := prior.domain }
  | none => td

/-- The trustee ownership check at the top of `get_token_data`: under an
enabled trust the caller must be the trust's trustee. -/
def trusteeCheck (env : Env) (user_id : String) (trust : Option TrustRef) :
    Except Err Unit :=
  if env.trust_enabled then
    match trust with
    | some tr =>
      if user_id == tr.trustee_user_id then .ok ()
      else .error (.forbidden userNotTrusteeMsg)
    | none => .ok ()
  else .ok ()

/-- Embedding of `V3TokenDataHelper.get_token_data`: the fixed assembly
pipeline scope → user → roles → catalog → dates. The Python function returns
the payload wrapped as a one-key dictionary; the wrapper is represented
implicitly by `Provider` storing the payload tagged `StoredTokenData.v3`. -/
def getTokenData (env : Env) (user_id : String)
    (method_names : Option (List String)) (extras : Option Extras)
    (domain_id project_id : Option String) (expires : Option Expiry)
    (trust : Option TrustRef) (token : Option TokenData) :
    Except Err TokenData :=
  match trusteeCheck env user_id trust with
  | .error e => .error e
  | .ok _ =>
    match populateScope env (initialTokenData method_names extras token)
        domain_id project_id with
    | .error e => .error e
    | .ok td1 =>
      match populateUser env td1 user_id domain_id project_id trust with
      | .error e => .error e
      | .ok td2 =>
        match populateRoles env td2 user_id domain_id project_id trust with
        | .error e => .error e
        | .ok td3 =>
          .ok (populateTokenDates env
            (populateServiceCatalog env td3 user_id domain_id project_id
              trust) expires)

/-- The denormalized `metadata` summary stored in a token record. -/
structure MetadataRef where
  roles : Option (List String) := none
  trust_id : Option String := none
  trustee_user_id : Option String := none
deriving DecidableEq

/-- The `token_data` value stored in a record: a structured v3 payload
(a dictionary with a `token` key) or a legacy/V2 shape without one. -/
inductive StoredTokenData where
  | v3 (td : TokenData)
  | v2
deriving DecidableEq

/-- The record persisted in the Token Store, keyed by token id. -/
structure TokenRecord where
  key : String
  id : String
  expires : Nat
  user : FilteredUser
  tenant : Option FilteredProject
  metadata : MetadataRef
  token_data : Option StoredTokenData
  trust_id : Option String
deriving DecidableEq

/-- The Token Store: an association list of records plus a fault-injection
flag that makes the next `create_token` fail (modelling an arbitrary
persistence failure). -/
structure TokenStore where
  records : List (String × TokenRecord)
  create_fails : Bool
deriving DecidableEq

/-- Token Store `get_token`: not-found raises `TokenNotFound`. -/
def TokenStore.get_token (s : TokenStore) (token_id : String) :
    Except Err TokenRecord :=
  match s.records.find? (fun p => p.1 == token_id) with
  | some p => .ok p.2
  | none => .error .tokenNotFound

/-- Token Store `create_token`. -/
def TokenStore.create_token (s : TokenStore) (token_id : String)
    (data : TokenRecord) : Except Err TokenStore :=
  if s.create_fails then .error .storageFailure
  else .ok { s with records := (token_id, data) :: s.records }

/-- Token Store `delete_token`: deleting an absent id raises
`TokenNotFound`. -/
def TokenStore.delete_token (s : TokenStore) (token_id : String) :
    Except Err TokenStore :=
  match s.records.find? (fun p => p.1 == token_id) with
  | none => .error .tokenNotFound
  | some _ =>
    .ok { s with records := s.records.filter (fun p => p.1 != token_id) }

/-- The auth context passed to `issue_token`; the provider only reads its
`extras`. -/
structure AuthContext where
  extras : Option Extras
deriving DecidableEq

/-- The keyword arguments of `Provider._issue_v3_token`. -/
structure IssueArgs where
  user_id : String
  method_names : Option (List String) := none
  expires_at : Option Expiry := none
  project_id : Option String := none
  domain_id : Option String := none
  auth_context : Option AuthContext := none
  trust : Option TrustRef := none
  metadata_ref : Option MetadataRef := none
deriving Inhabited

/-- The trust used by `_issue_v3_token`: the explicit trust argument, or — for
V2 — a trust resolved from a `trust_id` stashed in the metadata. -/
def resolveTrust (env : Env) (args : IssueArgs) :
    Except Err (Option TrustRef) :=
  match args.trust with
  | some tr => .ok (some tr)
  | none =>
    if env.trust_enabled then
      match args.metadata_ref with
      | some md =>
        match md.trust_id with
        | some tid =>
          match env.get_trust tid with
          | .error e => .error e
          | .ok tr => .ok (some tr)
        | none => .ok none
      | none => .ok none
    else .ok none

/-- The body of the `try` block of `_issue_v3_token`: normalize the expiry,
derive the denormalized metadata and record, and persist it. A missing
dictionary key becomes `Err.keyError`, caught like any other failure by the
surrounding collision recheck. -/
def persistToken (env : Env) (args : IssueArgs) (trust : Option TrustRef)
    (token_data : TokenData) (token_id : String) (store : TokenStore) :
    Except Err TokenStore :=
  match token_data.expires_at with
  | none => .error .keyError
  | some expiry_str =>
    let expiry := env.parse_norm expiry_str
    let metadata_ref :=
      match args.metadata_ref with
      | some m => m
      | none => ({} : MetadataRef)
    let metadataE : Except Err MetadataRef :=
      match token_data.project with
      | some _ =>
        match token_data.roles with
        | none => .error .keyError
        | some roles => .ok { roles := some (roles.map (fun r => r.id)) }
      | none => .ok metadata_ref
    match metadataE with
    | .error e => .error e
    | .ok md =>
      let md :=
        match trust with
        | some tr =>
          { md with
            trust_id := some (md.trust_id.getD tr.id),
            trustee_user_id :=
              some (md.trustee_user_id.getD tr.trustee_user_id) }
        | none => md
      match token_data.user with
      | none => .error .keyError
      | some u =>
        store.create_token token_id
          { key := token_id, id := token_id, expires := expiry, user := u,
            tenant := token_data.project, metadata := md,
            token_data := some (.v3 token_data),
            trust_id :=
              match trust with
              | some tr => some tr.id
              | none => none }

/-- The extras drawn from the auth context
(`auth_context.get('extras') if auth_context else None`). -/
def authExtras (args : IssueArgs) : Option Extras :=
  match args.auth_context with
  | some ac => ac.extras
  | none => none

/-- Embedding of `Provider._issue_v3_token`: resolve the trust, assemble the
payload, generate an id, and persist with the collision-recheck policy — if
persistence fails but a record already exists under the generated id, the
failure is swallowed; if the recheck finds nothing, the original failure is
re-raised. The resulting store is returned alongside the result. -/
def issueV3Token (env : Env) (args : IssueArgs) (store : TokenStore) :
    Except Err (String × TokenData) × TokenStore :=
  match resolveTrust env args with
  | .error e => (.error e, store)
  | .ok trust =>
    match getTokenData env args.user_id args.method_names (authExtras args)
        args.domain_id args.project_id args.expires_at trust none with
    | .error e => (.error e, store)
    | .ok token_data =>
      let token_id := env.gen_id
      match persistToken env args trust token_data token_id store with
      | .ok store2 => (.ok (token_id, token_data), store2)
      | .error e =>
        match store.get_token token_id with
        | .ok _ => (.ok (token_id, token_data), store)
        | .error _ => (.error e, store)

/-- The v3 version tag. -/
def V3ver : String := "v3.0"

/-- Embedding of `Provider.issue_token` (version dispatch). -/
def issue_token (env : Env) (version : String) (args : IssueArgs)
    (store : TokenStore) : Except Err (String × TokenData) × TokenStore :=
  if version == V3ver then issueV3Token env args store
  else (.error .unsupportedTokenVersion, store)

/-- Embedding of `Provider._verify_token`: fetch the record and, when a
truthy `belongs_to` is supplied, assert the record's tenant id matches
(an unscoped record makes the subscript fail with a `TypeError`). -/
def verifyToken (store : TokenStore) (token_id : String)
    (belongs_to : Option String) : Except Err TokenRecord :=
  match store.get_token token_id with
  | .error e => .error e
  | .ok token_ref =>
    if strTruthy belongs_to then
      match token_ref.tenant with
      | none => .error .typeError
      | some t =>
        if t.id == belongs_to.getD "" then .ok token_ref
        else .error .assertionFailed
    else .ok token_ref

/-- Embedding of `Provider.revoke_token`. -/
def revoke_token (store : TokenStore) (token_id : String) :
    Except Err TokenStore :=
  store.delete_token token_id

/-- Embedding of `Provider._validate_v3_token`: return the stored structured
payload as-is; for a legacy record, reconstruct a payload via the assembler
from the stored user id, tenant id and expiry, with methods
`["password", "token"]` and empty extras. -/
def validateV3Token (env : Env) (store : TokenStore) (token_id : String) :
    Except Err TokenData :=
  match verifyToken store token_id none with
  | .error e => .error e
  | .ok token_ref =>
    match token_ref.token_data with
    | some (.v3 td) => .ok td
    | _ =>
      let project_id :=
        match token_ref.tenant with
        | some p => some p.id
        | none => none
      getTokenData env token_ref.user.id (some ["password", "token"])
        (some []) none project_id (some (.time token_ref.expires)) none none

/-- Embedding of `Provider.validate_token`: version dispatch, with
`TokenNotFound` translated to `Unauthorized`. The `belongs_to` argument is
accepted but never forwarded. -/
def validate_token (env : Env) (store : TokenStore) (token_id : String)
    (belongs_to : Option String) (version : String) : Except Err TokenData :=
  let result :=
    if version == V3ver then validateV3Token env store token_id
    else .error .unsupportedTokenVersion
  match result with
  | .error .tokenNotFound => .error (.unauthorized couldNotFindTokenMsg)
  | r => r

/-- Embedding of `Provider.check_token`: version-gated existence check with
the same `TokenNotFound` translation; `belongs_to` is accepted but never
forwarded. -/
def check_token (store : TokenStore) (token_id : String)
    (belongs_to : Option String) (version : String) : Except Err Unit :=
  let result : Except Err Unit :=
    if version == V3ver then
      match verifyToken store token_id none with
      | .error e => .error e
      | .ok _ => .ok ()
    else .error .unsupportedTokenVersion
  match result with
  | .error .tokenNotFound => .error (.unauthorized couldNotFindTokenMsg)
  | r => r

instance {ε α : Type} [DecidableEq ε] [DecidableEq α] :
    DecidableEq (Except ε α) := fun a b =>
  match a, b with
  | .ok x, .ok y =>
    if h : x = y then .isTrue (by rw [h])
    else .isFalse (fun c => h (Except.ok.inj c))
  | .error x, .error y =>
    if h : x = y then .isTrue (by rw [h])
    else .isFalse (fun c => h (Except.error.inj c))
  | .ok _, .error _ => .isFalse (fun c => Except.noConfusion c)
  | .error _, .ok _ => .isFalse (fun c => Except.noConfusion c)

/-- Any field other than `domain` is untouched by the domain half of the
scope step. -/
theorem populateScopeDomain_frame {env : Env} {td td' : TokenData}
    {domain_id : Option String}
    (h : populateScopeDomain env td domain_id = .ok td') :
    td'.methods = td.methods ∧ td'.extras = td.extras ∧
    td'.user = td.user ∧ td'.project = td.project ∧ td'.roles = td.roles ∧
    td'.catalog = td.catalog ∧ td'.os_trust = td.os_trust ∧
    td'.expires_at = td.expires_at ∧ td'.issued_at = td.issued_at := by
  unfold populateScopeDomain at h
  split at h
  · split at h
    · exact absurd h (by simp)
    · cases h; exact ⟨rfl, rfl, rfl, rfl, rfl, rfl, rfl, rfl, rfl⟩
  · cases h; exact ⟨rfl, rfl, rfl, rfl, rfl, rfl, rfl, rfl, rfl⟩

/-- Any field other than `project` is untouched by the project half of the
scope step. -/
theorem populateScopeProject_frame {env : Env} {td td' : TokenData}
    {project_id : Option String}
    (h : populateScopeProject env td project_id = .ok td') :
    td'.methods = td.methods ∧ td'.extras = td.extras ∧
    td'.user = td.user ∧ td'.domain = td.domain ∧ td'.roles = td.roles ∧
    td'.catalog = td.catalog ∧ td'.os_trust = td.os_trust ∧
    td'.expires_at = td.expires_at ∧ td'.issued_at = td.issued_at := by
  unfold populateScopeProject at h
  split at h
  · split at h
    · exact absurd h (by simp)
    · cases h; exact ⟨rfl, rfl, rfl, rfl, rfl, rfl, rfl, rfl, rfl⟩
  · cases h; exact ⟨rfl, rfl, rfl, rfl, rfl, rfl, rfl, rfl, rfl⟩

/-- Any field other than `domain` and `project` is untouched by a successful
scope-population step. -/
theorem populateScope_frame {env : Env} {td td' : TokenData}
    {domain_id project_id : Option String}
    (h : populateScope env td domain_id project_id = .ok td') :
    td'.methods = td.methods ∧ td'.extras = td.extras ∧
    td'.user = td.user ∧ td'.roles = td.roles ∧
    td'.catalog = td.catalog ∧ td'.os_trust = td.os_trust ∧
    td'.expires_at = td.expires_at ∧ td'.issued_at = td.issued_at := by
  unfold populateScope at h
  split at h
  · cases h; exact ⟨rfl, rfl, rfl, rfl, rfl, rfl, rfl, rfl⟩
  · split at h
    · exact absurd h (by simp)
    · rename_i td1 hdom
      obtain ⟨h1, h2, h3, h4, h5, h6, h7, h8, h9⟩ :=
        populateScopeDomain_frame hdom
      obtain ⟨g1, g2, g3, g4, g5, g6, g7, g8, g9⟩ :=
        populateScopeProject_frame h
      exact ⟨g1.trans h1, g2.trans h2, g3.trans h3, g5.trans h5,
        g6.trans h6, g7.trans h7, g8.trans h8, g9.trans h9⟩

/-- Any field other than `os_trust` is untouched by the trust handling inside
the user step. -/
theorem populateUserTrust_frame {env : Env} {td td2 : TokenData}
    {user_ref u : UserRef} {trust : Option TrustRef}
    (h : populateUserTrust env td user_ref trust = .ok (u, td2)) :
    td2.methods = td.methods ∧ td2.extras = td.extras ∧
    td2.user = td.user ∧ td2.domain = td.domain ∧
    td2.project = td.project ∧ td2.roles = td.roles ∧
    td2.catalog = td.catalog ∧
    td2.expires_at = td.expires_at ∧ td2.issued_at = td.issued_at := by
  unfold populateUserTrust at h
  split at h
  · split at h
    · split at h
      · exact absurd h (by simp)
      · split at h
        · cases h; exact ⟨rfl, rfl, rfl, rfl, rfl, rfl, rfl, rfl, rfl⟩
        · exact absurd h (by simp)
    · cases h; exact ⟨rfl, rfl, rfl, rfl, rfl, rfl, rfl, rfl, rfl⟩
  · cases h; exact ⟨rfl, rfl, rfl, rfl, rfl, rfl, rfl, rfl, rfl⟩

/-- Any field other than `user` and `os_trust` is untouched by a successful
user-population step, and on success the `user` field is always present. -/
theorem populateUser_frame {env : Env} {td td' : TokenData} {user_id : String}
    {domain_id project_id : Option String} {trust : Option TrustRef}
    (h : populateUser env td user_id domain_id project_id trust = .ok td') :
    td'.methods = td.methods ∧ td'.extras = td.extras ∧
    td'.domain = td.domain ∧ td'.project = td.project ∧
    td'.roles = td.roles ∧ td'.catalog = td.catalog ∧
    td'.expires_at = td.expires_at ∧ td'.issued_at = td.issued_at ∧
    td'.user.isSome = true := by
  unfold populateUser at h
  split at h
  · rename_i hsome
    cases h
    exact ⟨rfl, rfl, rfl, rfl, rfl, rfl, rfl, rfl, hsome⟩
  · split at h
    · exact absurd h (by simp)
    · split at h
      · exact absurd h (by simp)
      · rename_i u td2 hstep
        split at h
        · exact absurd h (by simp)
        · cases h
          obtain ⟨h1, h2, h3, h4, h5, h6, h7, h8, h9⟩ :=
            populateUserTrust_frame hstep
          exact ⟨h1, h2, h4, h5, h6, h7, h8, h9, rfl⟩

/-- Any field other than `roles` is untouched by a successful scoped
role-population body. -/
theorem populateRolesScoped_frame {env : Env} {td td' : TokenData}
    {user_id token_user_id : String}
    {token_project_id token_domain_id : Option String}
    {trust : Option TrustRef}
    (h : populateRolesScoped env td user_id token_user_id token_project_id
      token_domain_id trust = .ok td') :
    td'.methods = td.methods ∧ td'.extras = td.extras ∧
    td'.user = td.user ∧ td'.domain = td.domain ∧
    td'.project = td.project ∧ td'.catalog = td.catalog ∧
    td'.os_trust = td.os_trust ∧
    td'.expires_at = td.expires_at ∧ td'.issued_at = td.issued_at := by
  unfold populateRolesScoped at h
  split at h
  · split at h
    · exact absurd h (by simp)
    · split at h
      · exact absurd h (by simp)
      · split at h
        · exact absurd h (by simp)
        · cases h; exact ⟨rfl, rfl, rfl, rfl, rfl, rfl, rfl, rfl, rfl⟩
  · cases h; exact ⟨rfl, rfl, rfl, rfl, rfl, rfl, rfl, rfl, rfl⟩

/-- Any field other than `roles` is untouched by a successful role-population
step. -/
theorem populateRoles_frame {env : Env} {td td' : TokenData} {user_id : String}
    {domain_id project_id : Option String} {trust : Option TrustRef}
    (h : populateRoles env td user_id domain_id project_id trust = .ok td') :
    td'.methods = td.methods ∧ td'.extras = td.extras ∧
    td'.user = td.user ∧ td'.domain = td.domain ∧
    td'.project = td.project ∧ td'.catalog = td.catalog ∧
    td'.os_trust = td.os_trust ∧
    td'.expires_at = td.expires_at ∧ td'.issued_at = td.issued_at := by
  unfold populateRoles at h
  split at h
  · cases h; exact ⟨rfl, rfl, rfl, rfl, rfl, rfl, rfl, rfl, rfl⟩
  · split at h
    exact populateRolesScoped_frame h

/-- Any field other than `catalog` is untouched by the catalog-population
step. -/
theorem populateServiceCatalog_frame (env : Env) (td : TokenData)
    (user_id : String) (domain_id project_id : Option String)
    (trust : Option TrustRef) :
    (populateServiceCatalog env td user_id domain_id project_id trust).methods
      = td.methods ∧
    (populateServiceCatalog env td user_id domain_id project_id trust).extras
      = td.extras ∧
    (populateServiceCatalog env td user_id domain_id project_id trust).user
      = td.user ∧
    (populateServiceCatalog env td user_id domain_id project_id trust).domain
      = td.domain ∧
    (populateServiceCatalog env td user_id domain_id project_id trust).project
      = td.project ∧
    (populateServiceCatalog env td user_id domain_id project_id trust).roles
      = td.roles ∧
    (populateServiceCatalog env td user_id domain_id project_id
      trust).os_trust = td.os_trust ∧
    (populateServiceCatalog env td user_id domain_id project_id
      trust).expires_at = td.expires_at ∧
    (populateServiceCatalog env td user_id domain_id project_id
      trust).issued_at = td.issued_at := by
  unfold populateServiceCatalog
  split
  · exact ⟨rfl, rfl, rfl, rfl, rfl, rfl, rfl, rfl, rfl⟩
  · split
    · exact ⟨rfl, rfl, rfl, rfl, rfl, rfl, rfl, rfl, rfl⟩
    · exact ⟨rfl, rfl, rfl, rfl, rfl, rfl, rfl, rfl, rfl⟩

/-- The dates step always stamps `issued_at` with the current time and always
sets `expires_at`, and keeps every other field. -/
theorem populateTokenDates_frame (env : Env) (td : TokenData)
    (expires : Option Expiry) :
    (populateTokenDates env td expires).issued_at = some env.now_iso ∧
    (populateTokenDates env td expires).expires_at.isSome = true ∧
    (populateTokenDates env td expires).methods = td.methods ∧
    (populateTokenDates env td expires).extras = td.extras ∧
    (populateTokenDates env td expires).user = td.user ∧
    (populateTokenDates env td expires).domain = td.domain ∧
    (populateTokenDates env td expires).project = td.project ∧
    (populateTokenDates env td expires).roles = td.roles ∧
    (populateTokenDates env td expires).catalog = td.catalog ∧
    (populateTokenDates env td expires).os_trust = td.os_trust := by
  unfold populateTokenDates
  exact ⟨rfl, rfl, rfl, rfl, rfl, rfl, rfl, rfl, rfl, rfl⟩

/-- If some declared trust role has no id-match among the resolved roles,
trust-role matching fails with the delegation `Forbidden`. -/
theorem matchTrustRoles_error {roles : List Role} {trl : List TrustRole}
    (h : ∃ t ∈ trl, ∀ r ∈ roles, r.id ≠ t.id) :
    matchTrustRoles roles trl = .error (.forbidden trusteeNoRolesMsg) := by
  induction trl with
  | nil => simp at h
  | cons t rest ih =>
    obtain ⟨t0, ht0mem, ht0⟩ := h
    unfold matchTrustRoles
    rcases List.mem_cons.mp ht0mem with heq | hmem
    · subst heq
      have hfil : roles.filter (fun x => x.id == t0.id) = [] := by
        rw [List.filter_eq_nil_iff]
        intro a ha
        simpa using ht0 a ha
      rw [hfil]
    · cases hfil : roles.filter (fun x => x.id == t.id) with
      | nil => rfl
      | cons m ms =>
        rw [ih ⟨t0, hmem, ht0⟩]

/-- If every declared trust role has an id-match among the resolved roles,
trust-role matching succeeds and returns, role by declared role, a matching
member of the resolved roles. -/
theorem matchTrustRoles_ok {roles : List Role} {trl : List TrustRole}
    (h : ∀ t ∈ trl, ∃ r ∈ roles, r.id = t.id) :
    ∃ fr, matchTrustRoles roles trl = .ok fr ∧
      List.Forall₂ (fun f t => f.id = t.id ∧ f ∈ roles) fr trl := by
  induction trl with
  | nil => exact ⟨[], rfl, List.Forall₂.nil⟩
  | cons t rest ih =>
    obtain ⟨r0, hr0mem, hr0⟩ := h t (List.mem_cons_self t rest)
    have hne : roles.filter (fun x => x.id == t.id) ≠ [] := by
      intro hc
      rw [List.filter_eq_nil_iff] at hc
      exact absurd (by simpa using hr0) (hc r0 hr0mem)
    obtain ⟨fr, hfr, hall⟩ :=
      ih (fun t' ht' => h t' (List.mem_cons_of_mem t ht'))
    cases hfil : roles.filter (fun x => x.id == t.id) with
    | nil => exact absurd hfil hne
    | cons m ms =>
      refine ⟨m :: fr, ?_, ?_⟩
      · unfold matchTrustRoles
        rw [hfil, hfr]
      · have hm : m ∈ roles.filter (fun x => x.id == t.id) := by
          rw [hfil]; exact List.mem_cons_self m ms
        rw [List.mem_filter] at hm
        exact List.Forall₂.cons ⟨by simpa using hm.2, hm.1⟩ hall

/-- Verification with no ownership constraint is exactly the store fetch. -/
theorem verifyToken_none (store : TokenStore) (token_id : String) :
    verifyToken store token_id none = store.get_token token_id := by
  unfold verifyToken
  cases store.get_token token_id <;> simp [strTruthy]

/-- Nothing keyed by `token_id` survives filtering out `token_id`. -/
theorem find?_filter_out (l : List (String × TokenRecord)) (token_id : String) :
    (l.filter (fun p => p.1 != token_id)).find? (fun p => p.1 == token_id)
      = none := by
  induction l with
  | nil => rfl
  | cons a l ih =>
    rw [List.filter_cons]
    by_cases hc : a.1 = token_id
    · rw [hc, bne_self_eq_false, if_neg Bool.false_ne_true]
      exact ih
    · have hb : (a.1 != token_id) = true := bne_iff_ne.mpr hc
      rw [if_pos hb, List.find?_cons]
      have : (a.1 == token_id) = false := beq_eq_false_iff_ne.mpr hc
      rw [this]
      exact ih

/-- After a successful delete, fetching the same id raises `TokenNotFound`. -/
theorem get_token_after_delete {store store2 : TokenStore} {token_id : String}
    (h : store.delete_token token_id = .ok store2) :
    store2.get_token token_id = .error .tokenNotFound := by
  unfold TokenStore.delete_token at h
  split at h
  · exact absurd h (by simp)
  · cases h
    unfold TokenStore.get_token
    rw [find?_filter_out]

/-! Shared concrete fixtures used by witnesses and counterexamples. -/

/-- Fixture domain. -/
def domA : DomainRef := { id := "d1", name := "Dom1" }

/-- Fixture filtered domain. -/
def fdomA : FilteredDomain := { id := "d1", name := "Dom1" }

/-- Fixture roles. -/
def roleA : Role := { id := "rA", name := "RoleA" }

/-- Second fixture role. -/
def roleB : Role := { id := "rB", name := "RoleB" }

/-- Fixture trustor user. -/
def userTrustor : UserRef :=
  { id := "utor", name := "Trustor", domain_id := "d1", enabled := true }

/-- Fixture trustee user. -/
def userTrustee : UserRef :=
  { id := "utee", name := "Trustee", domain_id := "d1", enabled := true }

/-- Fixture project. -/
def projA : ProjectRef := { id := "p1", name := "Proj1", domain_id := "d1" }

/-- Fixture environment: trust enabled; the trustor holds role `rA` on
project `p1`; the trustee holds no roles anywhere. -/
def envA : Env :=
  { trust_enabled := true
    users := [userTrustor, userTrustee]
    domains := [domA]
    projects := [projA]
    role_refs := [roleA, roleB]
    trusts := []
    roles_for_user_and_domain := fun _ _ => []
    roles_for_user_and_project :=
      fun u p => if u == "utor" && p == "p1" then ["rA"] else []
    get_v3_catalog := fun _ _ => some []
    now_iso := "2013-01-01T00:00:00.000000Z"
    isotime := fun t => "iso" ++ toString t
    parse_norm := fun _ => 42
    default_expire := 99
    gen_id := "tid1" }

/-- Fixture trust: trustor delegates role `rA` on project `p1` to the
trustee, without impersonation. -/
def trustA : TrustRef :=
  { id := "tr1", trustor_user_id := "utor", trustee_user_id := "utee",
    impersonation := false, project_id := some "p1", roles := [{ id := "rA" }] }

/-- Empty fixture store. -/
def storeA : TokenStore := { records := [], create_fails := false }

/-- Fixture issuance arguments: the trustor requests a project-scoped token
with no trust. -/
def argsProj : IssueArgs :=
  { user_id := "utor", method_names := some ["password"],
    project_id := some "p1" }

/-- C10. For every token id and every non-empty `belongs_to` value,
`validate_token` and `check_token` give exactly the same result as the same
call with `belongs_to` absent — they accept the ownership constraint but
never forward it; only the internal `_verify_token` enforces tenant
ownership (failing its assertion on a tenant mismatch). -/
theorem c10_belongs_to_ignored (env : Env) (store : TokenStore)
    (token_id b version : String) (r : TokenRecord) (pr : FilteredProject) :
    validate_token env store token_id (some b) version =
      validate_token env store token_id none version ∧
    check_token store token_id (some b) version =
      check_token store token_id none version ∧
    (store.get_token token_id = .ok r → r.tenant = some pr → pr.id ≠ b →
      b ≠ "" → verifyToken store token_id (some b) =
        .error .assertionFailed) := by
  refine ⟨rfl, rfl, ?_⟩
  intro hget htenant hne hb
  simp [verifyToken, hget, htenant, strTruthy, hb, hne]

/-- Fixture filtered project for witness records. -/
def fprojA : FilteredProject := { id := "p1", name := "Proj1", domain := fdomA }

/-- Fixture record scoped to project `p1`, stored under id `t1`. -/
def recordT1 : TokenRecord :=
  { key := "t1", id := "t1", expires := 0,
    user := { id := "u", name := "U", domain := fdomA },
    tenant := some fprojA,
    metadata := {}, token_data := none, trust_id := none }

/-- Store holding only `recordT1`. -/
def storeT1 : TokenStore := { records := [("t1", recordT1)],
                              create_fails := false }

/-- Witness for C10 at a concrete store, record and mismatching project. -/
theorem c10_belongs_to_ignored_witness :
    validate_token envA storeT1 "t1" (some "p9") V3ver =
      validate_token envA storeT1 "t1" none V3ver ∧
    check_token storeT1 "t1" (some "p9") V3ver =
      check_token storeT1 "t1" none V3ver ∧
    verifyToken storeT1 "t1" (some "p9") = .error .assertionFailed :=
  ⟨(c10_belongs_to_ignored envA storeT1 "t1" "p9" V3ver recordT1 fprojA).1,
   (c10_belongs_to_ignored envA storeT1 "t1" "p9" V3ver recordT1 fprojA).2.1,
   (c10_belongs_to_ignored envA storeT1 "t1" "p9" V3ver recordT1 fprojA).2.2
     (by rfl) (by rfl) (by decide) (by decide)⟩

/-- C7. Token-not-found during validation or check surfaces as
`Unauthorized` (never the raw not-found); revoking a token id and then
validating it therefore fails unauthorized; any other validation error —
not-found from the identity, project, domain, role or trust collaborators
included — propagates unchanged. -/
theorem c7_not_found_unauthorized (env : Env) (store store2 : TokenStore)
    (token_id : String) (b : Option String) (e : Err) :
    (store.get_token token_id = .error .tokenNotFound →
      validate_token env store token_id b V3ver =
        .error (.unauthorized couldNotFindTokenMsg) ∧
      check_token store token_id b V3ver =
        .error (.unauthorized couldNotFindTokenMsg)) ∧
    (revoke_token store token_id = .ok store2 →
      validate_token env store2 token_id b V3ver =
        .error (.unauthorized couldNotFindTokenMsg)) ∧
    (validateV3Token env store token_id = .error e → e ≠ .tokenNotFound →
      validate_token env store token_id b V3ver = .error e) := by
  have hv3 : (V3ver == V3ver) = true := by rfl
  refine ⟨?_, ?_, ?_⟩
  · intro hget
    constructor
    · unfold validate_token validateV3Token
      rw [hv3, if_pos rfl, verifyToken_none, hget]
    · unfold check_token
      rw [hv3, if_pos rfl, verifyToken_none, hget]
  · intro hrev
    unfold validate_token validateV3Token
    rw [hv3, if_pos rfl, verifyToken_none,
      get_token_after_delete hrev]
  · intro hval hne
    unfold validate_token
    rw [hv3, if_pos rfl, hval]
    cases e <;> simp_all

/-- Fixture legacy record whose stored user id is unknown to the identity
directory, so legacy validation fails with a plain not-found. -/
def recordGhost : TokenRecord :=
  { key := "tg", id := "tg", expires := 5,
    user := { id := "ghost", name := "G", domain := fdomA },
    tenant := none, metadata := {}, token_data := none, trust_id := none }

/-- Store holding only `recordGhost`. -/
def storeGhost : TokenStore := { records := [("tg", recordGhost)],
                                 create_fails := false }

/-- Witness for C7: an absent token validates/checks unauthorized; revoking
`recordT1` then validating is unauthorized; a non-token not-found
(unknown user of a legacy record) propagates unchanged. -/
theorem c7_not_found_unauthorized_witness :
    (validate_token envA storeA "t1" none V3ver =
        .error (.unauthorized couldNotFindTokenMsg) ∧
      check_token storeA "t1" none V3ver =
        .error (.unauthorized couldNotFindTokenMsg)) ∧
    validate_token envA storeA "t1" none V3ver =
      .error (.unauthorized couldNotFindTokenMsg) ∧
    validate_token envA storeGhost "tg" none V3ver =
      .error (.notFound ("user " ++ "ghost")) :=
  ⟨(c7_not_found_unauthorized envA storeA storeA "t1" none
      .tokenNotFound).1 (by rfl),
   (c7_not_found_unauthorized envA storeT1 storeA "t1" none
      .tokenNotFound).2.1 (by rfl),
   (c7_not_found_unauthorized envA storeGhost storeGhost "tg" none
      (.notFound ("user " ++ "ghost"))).2.2 (by rfl) (by decide)⟩

/-- C3. When persistence of a freshly assembled token fails with any error,
issuance re-checks the store under the just-generated id: if a record exists
there the failure is swallowed and issuance succeeds with the generated id
and assembled payload (store unchanged); if the re-check raises
token-not-found, the original error is re-raised unmodified. -/
theorem c3_create_failure_recheck (env : Env) (args : IssueArgs)
    (store : TokenStore) (trust : Option TrustRef) (td : TokenData)
    (e : Err) (r : TokenRecord)
    (htr : resolveTrust env args = .ok trust)
    (hasm : getTokenData env args.user_id args.method_names (authExtras args)
      args.domain_id args.project_id args.expires_at trust none = .ok td)
    (hfail : persistToken env args trust td env.gen_id store = .error e) :
    (store.get_token env.gen_id = .ok r →
      issueV3Token env args store = (.ok (env.gen_id, td), store)) ∧
    (store.get_token env.gen_id = .error .tokenNotFound →
      issueV3Token env args store = (.error e, store)) := by
  constructor
  · intro hget
    unfold issueV3Token
    simp only [htr, hasm, hfail, hget]
  · intro hget
    unfold issueV3Token
    simp only [htr, hasm, hfail, hget]

/-- A pre-existing record sitting under the id that issuance will generate. -/
def recordPre : TokenRecord :=
  { key := "tid1", id := "tid1", expires := 3,
    user := { id := "z", name := "Z", domain := fdomA },
    tenant := none, metadata := {}, token_data := none, trust_id := none }

/-- The payload assembled for `argsProj` in `envA`. -/
def tdProjA : TokenData :=
  { methods := some ["password"],
    user := some { id := "utor", name := "Trustor", domain := fdomA },
    project := some { id := "p1", name := "Proj1", domain := fdomA },
    roles := some [roleA], catalog := some ([] : Catalog),
    expires_at := some "iso99",
    issued_at := some "2013-01-01T00:00:00.000000Z" }

/-- A store that already holds `recordPre` under the to-be-generated id and
whose next create fails. -/
def storePre : TokenStore :=
  { records := [("tid1", recordPre)], create_fails := true }

/-- Witness for C3: a store whose create fails while a record already exists
under the generated id — the failure is swallowed and issuance succeeds. -/
theorem c3_create_failure_recheck_witness :
    issueV3Token envA argsProj storePre = (.ok ("tid1", tdProjA), storePre) :=
  (c3_create_failure_recheck envA argsProj storePre none tdProjA
    .storageFailure recordPre (by rfl) (by rfl) (by rfl)).1 (by rfl)

/-- Validation at the v3 version tag is the v3 validation with the
token-not-found translation applied. -/
theorem validate_token_v3 (env : Env) (store : TokenStore)
    (token_id : String) (b : Option String) :
    validate_token env store token_id b V3ver =
      match validateV3Token env store token_id with
      | .error .tokenNotFound => .error (.unauthorized couldNotFindTokenMsg)
      | r => r := by
  unfold validate_token
  rw [if_pos (show (V3ver == V3ver) = true from rfl)]

/-- C4. A token freshly issued whose stored record carries the structured
payload validates (same version) to a payload equal to the payload returned
at issuance: validation returns the stored `token_data` as-is. -/
theorem c4_validate_fresh_token (env : Env) (args : IssueArgs)
    (store store2 : TokenStore) (token_id : String) (td : TokenData)
    (r : TokenRecord)
    (hiss : issueV3Token env args store = (.ok (token_id, td), store2))
    (hrec : store2.get_token token_id = .ok r)
    (hr : r.token_data = some (.v3 td)) :
    validate_token env store2 token_id none V3ver = .ok td := by
  have h1 : validateV3Token env store2 token_id = .ok td := by
    unfold validateV3Token
    rw [verifyToken_none]
    simp only [hrec, hr]
  rw [validate_token_v3, h1]

/-- The record written by a successful issuance of `argsProj` in `envA`. -/
def recordIssuedA : TokenRecord :=
  { key := "tid1", id := "tid1", expires := 42,
    user := { id := "utor", name := "Trustor", domain := fdomA },
    tenant := some fprojA,
    metadata := { roles := some ["rA"] },
    token_data := some (.v3 tdProjA), trust_id := none }

/-- The store after a successful issuance of `argsProj` into `storeA`. -/
def storeIssuedA : TokenStore :=
  { records := [("tid1", recordIssuedA)], create_fails := false }

/-- Witness for C4: issue into the empty store, then validate the fresh id. -/
theorem c4_validate_fresh_token_witness :
    validate_token envA storeIssuedA "tid1" none V3ver = .ok tdProjA :=
  c4_validate_fresh_token envA argsProj storeA storeIssuedA "tid1" tdProjA
    recordIssuedA (by rfl) (by rfl) (by rfl)

/-- The scoped role-population body denies with the message naming the
effective scope when the filtered role set comes out empty. -/
theorem populateRolesScoped_empty {env : Env} {td : TokenData}
    {user_id token_user_id : String}
    {token_project_id token_domain_id : Option String}
    {trust : Option TrustRef} {rs : List Role}
    (hscoped : (strTruthy token_domain_id || strTruthy token_project_id)
      = true)
    (hlookup : getRolesForUser env token_user_id token_domain_id
      token_project_id = .ok rs)
    (hfiltered : filterTrustRoles env trust rs = .ok []) :
    populateRolesScoped env td user_id token_user_id token_project_id
        token_domain_id trust =
      .error (.unauthorized
        (if strTruthy token_project_id then
          noAccessProjectMsg user_id (token_project_id.getD "")
        else noAccessDomainMsg user_id (token_domain_id.getD ""))) := by
  unfold populateRolesScoped
  rw [if_pos hscoped]
  simp only [hlookup, hfiltered, List.isEmpty_nil, if_true]

/-- The scoped role-population body propagates a role-filtering failure. -/
theorem populateRolesScoped_filter_error {env : Env} {td : TokenData}
    {user_id token_user_id : String}
    {token_project_id token_domain_id : Option String}
    {trust : Option TrustRef} {rs : List Role} {e : Err}
    (hscoped : (strTruthy token_domain_id || strTruthy token_project_id)
      = true)
    (hlookup : getRolesForUser env token_user_id token_domain_id
      token_project_id = .ok rs)
    (hfil : filterTrustRoles env trust rs = .error e) :
    populateRolesScoped env td user_id token_user_id token_project_id
      token_domain_id trust = .error e := by
  unfold populateRolesScoped
  rw [if_pos hscoped]
  simp only [hlookup, hfil]

/-- The scoped role-population body writes a non-empty filtered role set. -/
theorem populateRolesScoped_filter_ok {env : Env} {td : TokenData}
    {user_id token_user_id : String}
    {token_project_id token_domain_id : Option String}
    {trust : Option TrustRef} {rs fr : List Role}
    (hscoped : (strTruthy token_domain_id || strTruthy token_project_id)
      = true)
    (hlookup : getRolesForUser env token_user_id token_domain_id
      token_project_id = .ok rs)
    (hfil : filterTrustRoles env trust rs = .ok fr)
    (hfrne : fr.isEmpty = false) :
    populateRolesScoped env td user_id token_user_id token_project_id
      token_domain_id trust = .ok { td with roles := some fr } := by
  unfold populateRolesScoped
  rw [if_pos hscoped]
  simp only [hlookup, hfil, hfrne, Bool.false_eq_true, if_false]

/-- With no roles carried in, role population is the scoped body at the
effective ids. -/
theorem populateRoles_no_carry {env : Env} {td : TokenData}
    {user_id : String} {domain_id project_id : Option String}
    {trust : Option TrustRef} (h : td.roles = none) :
    populateRoles env td user_id domain_id project_id trust =
      (match effectiveIds env user_id domain_id project_id trust with
       | (token_user_id, token_project_id, token_domain_id) =>
         populateRolesScoped env td user_id token_user_id token_project_id
           token_domain_id trust) := by
  unfold populateRoles
  rw [h]
  simp

/-- C2. An issuance with a domain or project scope whose filtered role set
for the effective principal comes out empty fails with an `Unauthorized`
naming the denied scope (project if a project scope is in effect, otherwise
domain), and the Token Store is left unchanged — the write happens only
after assembly succeeds. -/
theorem c2_empty_roles_denial (env : Env) (args : IssueArgs)
    (store : TokenStore) (trust : Option TrustRef) (td1 td2 : TokenData)
    (token_user_id : String) (token_project_id token_domain_id : Option String)
    (rs : List Role)
    (htr : resolveTrust env args = .ok trust)
    (hcheck : trusteeCheck env args.user_id trust = .ok ())
    (hscope : populateScope env
      (initialTokenData args.method_names (authExtras args) none)
      args.domain_id args.project_id = .ok td1)
    (huser : populateUser env td1 args.user_id args.domain_id args.project_id
      trust = .ok td2)
    (heff : effectiveIds env args.user_id args.domain_id args.project_id trust
      = (token_user_id, token_project_id, token_domain_id))
    (hscoped : (strTruthy token_domain_id || strTruthy token_project_id)
      = true)
    (hlookup : getRolesForUser env token_user_id token_domain_id
      token_project_id = .ok rs)
    (hfiltered : filterTrustRoles env trust rs = .ok []) :
    issueV3Token env args store =
      (.error (.unauthorized
        (if strTruthy token_project_id then
          noAccessProjectMsg args.user_id (token_project_id.getD "")
        else noAccessDomainMsg args.user_id (token_domain_id.getD ""))),
       store) := by
  have hr2 : td2.roles = none := by
    have h1 := (populateScope_frame hscope).2.2.2.1
    have h2 := (populateUser_frame huser).2.2.2.2.1
    rw [h2, h1]
    rfl
  have hroles : populateRoles env td2 args.user_id args.domain_id
      args.project_id trust =
      .error (.unauthorized
        (if strTruthy token_project_id then
          noAccessProjectMsg args.user_id (token_project_id.getD "")
        else noAccessDomainMsg args.user_id (token_domain_id.getD ""))) := by
    rw [populateRoles_no_carry hr2, heff]
    exact populateRolesScoped_empty hscoped hlookup hfiltered
  have htd : getTokenData env args.user_id args.method_names (authExtras args)
      args.domain_id args.project_id args.expires_at trust none =
      .error (.unauthorized
        (if strTruthy token_project_id then
          noAccessProjectMsg args.user_id (token_project_id.getD "")
        else noAccessDomainMsg args.user_id (token_domain_id.getD ""))) := by
    unfold getTokenData
    simp only [hcheck, hscope, huser, hroles]
  unfold issueV3Token
  simp only [htr, htd]

/-- Issuance arguments for a principal with no roles on the requested
project. -/
def argsNoRoles : IssueArgs :=
  { user_id := "utee", method_names := some ["password"],
    project_id := some "p1" }

/-- Token data after the scope step for `argsNoRoles` in `envA`. -/
def tdNoRoles1 : TokenData :=
  { methods := some ["password"], project := some fprojA }

/-- Token data after the user step for `argsNoRoles` in `envA`. -/
def tdNoRoles2 : TokenData :=
  { methods := some ["password"], project := some fprojA,
    user := some { id := "utee", name := "Trustee", domain := fdomA } }

/-- Witness for C2: the trustee holds no roles on project `p1`, so issuance
denies naming `p1` and the store is unchanged. -/
theorem c2_empty_roles_denial_witness :
    issueV3Token envA argsNoRoles storeA =
      (.error (.unauthorized (noAccessProjectMsg "utee" "p1")), storeA) :=
  c2_empty_roles_denial envA argsNoRoles storeA none tdNoRoles1 tdNoRoles2
    "utee" (some "p1") none [] (by rfl) (by rfl) (by rfl) (by rfl) (by rfl)
    (by rfl) (by rfl) (by rfl)

/-! The assembler can fail with not-found, forbidden or unauthorized errors,
but never with the store's token-not-found — so the provider's
token-not-found translation never fires on a reconstruction failure. -/

/-- A user lookup never raises token-not-found. -/
theorem get_user_ne_tnf (env : Env) (u : String) :
    env.get_user u ≠ .error .tokenNotFound := by
  unfold Env.get_user
  split <;> simp

/-- A domain lookup never raises token-not-found. -/
theorem get_domain_ne_tnf (env : Env) (d : String) :
    env.get_domain d ≠ .error .tokenNotFound := by
  unfold Env.get_domain
  split <;> simp

/-- A project lookup never raises token-not-found. -/
theorem get_project_ne_tnf (env : Env) (p : String) :
    env.get_project p ≠ .error .tokenNotFound := by
  unfold Env.get_project
  split <;> simp

/-- A role lookup never raises token-not-found. -/
theorem get_role_ne_tnf (env : Env) (r : String) :
    env.get_role r ≠ .error .tokenNotFound := by
  unfold Env.get_role
  split <;> simp

/-- Domain filtering never raises token-not-found. -/
theorem getFilteredDomain_ne_tnf (env : Env) (d : String) :
    getFilteredDomain env d ≠ .error .tokenNotFound := by
  unfold getFilteredDomain
  split
  · rename_i e heq
    intro hc
    injection hc with h2
    rw [h2] at heq
    exact absurd heq (get_domain_ne_tnf env d)
  · simp

/-- Project filtering never raises token-not-found. -/
theorem getFilteredProject_ne_tnf (env : Env) (p : String) :
    getFilteredProject env p ≠ .error .tokenNotFound := by
  unfold getFilteredProject
  split
  · rename_i e heq
    intro hc
    injection hc with h2
    rw [h2] at heq
    exact absurd heq (get_project_ne_tnf env p)
  · rename_i pr heq
    split
    · rename_i e heq2
      intro hc
      injection hc with h2
      rw [h2] at heq2
      exact absurd heq2 (getFilteredDomain_ne_tnf env pr.domain_id)
    · simp

/-- The domain half of the scope step never raises token-not-found. -/
theorem populateScopeDomain_ne_tnf (env : Env) (td : TokenData)
    (domain_id : Option String) :
    populateScopeDomain env td domain_id ≠ .error .tokenNotFound := by
  unfold populateScopeDomain
  split
  · split
    · rename_i e heq
      intro hc
      injection hc with h2
      rw [h2] at heq
      exact absurd heq (getFilteredDomain_ne_tnf env (domain_id.getD ""))
    · simp
  · simp

/-- The project half of the scope step never raises token-not-found. -/
theorem populateScopeProject_ne_tnf (env : Env) (td : TokenData)
    (project_id : Option String) :
    populateScopeProject env td project_id ≠ .error .tokenNotFound := by
  unfold populateScopeProject
  split
  · split
    · rename_i e heq
      intro hc
      injection hc with h2
      rw [h2] at heq
      exact absurd heq (getFilteredProject_ne_tnf env (project_id.getD ""))
    · simp
  · simp

/-- The scope step never raises token-not-found. -/
theorem populateScope_ne_tnf (env : Env) (td : TokenData)
    (domain_id project_id : Option String) :
    populateScope env td domain_id project_id ≠ .error .tokenNotFound := by
  unfold populateScope
  split
  · simp
  · split
    · rename_i e heq
      intro hc
      injection hc with h2
      rw [h2] at heq
      exact absurd heq (populateScopeDomain_ne_tnf env td domain_id)
    · rename_i td1 heq
      exact populateScopeProject_ne_tnf env td1 project_id

/-- The trust handling of the user step never raises token-not-found. -/
theorem populateUserTrust_ne_tnf (env : Env) (td : TokenData)
    (user_ref : UserRef) (trust : Option TrustRef) :
    populateUserTrust env td user_ref trust ≠ .error .tokenNotFound := by
  unfold populateUserTrust
  split
  · rename_i tr
    split
    · split
      · rename_i e heq
        intro hc
        injection hc with h2
        rw [h2] at heq
        exact absurd heq (get_user_ne_tnf env tr.trustor_user_id)
      · split <;> simp
    · simp
  · simp

/-- The user step never raises token-not-found. -/
theorem populateUser_ne_tnf (env : Env) (td : TokenData) (user_id : String)
    (domain_id project_id : Option String) (trust : Option TrustRef) :
    populateUser env td user_id domain_id project_id trust
      ≠ .error .tokenNotFound := by
  unfold populateUser
  split
  · simp
  · split
    · rename_i e heq
      intro hc
      injection hc with h2
      rw [h2] at heq
      exact absurd heq (get_user_ne_tnf env user_id)
    · rename_i user_ref heq
      split
      · rename_i e heq2
        intro hc
        injection hc with h2
        rw [h2] at heq2
        exact absurd heq2 (populateUserTrust_ne_tnf env td user_ref trust)
      · rename_i u td2 heq2
        split
        · rename_i e heq3
          intro hc
          injection hc with h2
          rw [h2] at heq3
          exact absurd heq3 (getFilteredDomain_ne_tnf env u.domain_id)
        · simp

/-- Role-ref resolution never raises token-not-found. -/
theorem getRoleList_ne_tnf (env : Env) (l : List String) :
    getRoleList env l ≠ .error .tokenNotFound := by
  induction l with
  | nil => simp [getRoleList]
  | cons a l ih =>
    unfold getRoleList
    split
    · rename_i e heq
      intro hc
      injection hc with h2
      rw [h2] at heq
      exact absurd heq (get_role_ne_tnf env a)
    · split
      · rename_i e heq
        intro hc
        injection hc with h2
        rw [h2] at heq
        exact absurd heq ih
      · simp

/-- Role lookup for a user never raises token-not-found. -/
theorem getRolesForUser_ne_tnf (env : Env) (user_id : String)
    (domain_id project_id : Option String) :
    getRolesForUser env user_id domain_id project_id
      ≠ .error .tokenNotFound := by
  unfold getRolesForUser
  exact getRoleList_ne_tnf env _

/-- Trust-role matching never raises token-not-found. -/
theorem matchTrustRoles_ne_tnf (roles : List Role) (trl : List TrustRole) :
    matchTrustRoles roles trl ≠ .error .tokenNotFound := by
  induction trl with
  | nil => simp [matchTrustRoles]
  | cons t rest ih =>
    unfold matchTrustRoles
    split
    · simp
    · split
      · rename_i e heq
        intro hc
        injection hc with h2
        rw [h2] at heq
        exact absurd heq ih
      · simp

/-- Role filtering never raises token-not-found. -/
theorem filterTrustRoles_ne_tnf (env : Env) (trust : Option TrustRef)
    (roles : List Role) :
    filterTrustRoles env trust roles ≠ .error .tokenNotFound := by
  unfold filterTrustRoles
  split
  · rename_i tr
    split
    · exact matchTrustRoles_ne_tnf roles tr.roles
    · simp
  · simp

/-- The scoped role-population body never raises token-not-found. -/
theorem populateRolesScoped_ne_tnf (env : Env) (td : TokenData)
    (user_id token_user_id : String)
    (token_project_id token_domain_id : Option String)
    (trust : Option TrustRef) :
    populateRolesScoped env td user_id token_user_id token_project_id
      token_domain_id trust ≠ .error .tokenNotFound := by
  unfold populateRolesScoped
  split
  · split
    · rename_i e heq
      intro hc
      injection hc with h2
      rw [h2] at heq
      exact absurd heq
        (getRolesForUser_ne_tnf env token_user_id token_domain_id
          token_project_id)
    · rename_i roles heq
      split
      · rename_i e heq2
        intro hc
        injection hc with h2
        rw [h2] at heq2
        exact absurd heq2 (filterTrustRoles_ne_tnf env trust roles)
      · split <;> simp
  · simp

/-- The roles step never raises token-not-found. -/
theorem populateRoles_ne_tnf (env : Env) (td : TokenData) (user_id : String)
    (domain_id project_id : Option String) (trust : Option TrustRef) :
    populateRoles env td user_id domain_id project_id trust
      ≠ .error .tokenNotFound := by
  unfold populateRoles
  split
  · simp
  · split
    exact populateRolesScoped_ne_tnf env td user_id _ _ _ trust

/-- The trustee check never raises token-not-found. -/
theorem trusteeCheck_ne_tnf (env : Env) (user_id : String)
    (trust : Option TrustRef) :
    trusteeCheck env user_id trust ≠ .error .tokenNotFound := by
  unfold trusteeCheck
  split
  · split
    · split <;> simp
    · simp
  · simp

/-- The assembler never raises token-not-found. -/
theorem getTokenData_ne_tnf (env : Env) (user_id : String)
    (method_names : Option (List String)) (extras : Option Extras)
    (domain_id project_id : Option String) (expires : Option Expiry)
    (trust : Option TrustRef) (token : Option TokenData) :
    getTokenData env user_id method_names extras domain_id project_id expires
      trust token ≠ .error .tokenNotFound := by
  unfold getTokenData
  split
  · rename_i e heq
    intro hc
    injection hc with h2
    rw [h2] at heq
    exact absurd heq (trusteeCheck_ne_tnf env user_id trust)
  · split
    · rename_i e heq
      intro hc
      injection hc with h2
      rw [h2] at heq
      exact absurd heq (populateScope_ne_tnf env _ domain_id project_id)
    · rename_i td1 heq
      split
      · rename_i e heq2
        intro hc
        injection hc with h2
        rw [h2] at heq2
        exact absurd heq2
          (populateUser_ne_tnf env td1 user_id domain_id project_id trust)
      · rename_i td2 heq2
        split
        · rename_i e heq3
          intro hc
          injection hc with h2
          rw [h2] at heq3
          exact absurd heq3
            (populateRoles_ne_tnf env td2 user_id domain_id project_id trust)
        · simp

/-- C8. Validating a stored record that lacks a structured payload (legacy
shape: no `token_data`, or a `token_data` without a `token` key) reconstructs
the payload via the assembler from the record's stored user id, the project
id taken from its `tenant` (absent tenant means no project scope) and its
expiry, with auth methods exactly `["password", "token"]` and empty extras —
roles, catalog and scope populated as for a fresh issuance on that
project. -/
theorem c8_legacy_reconstruction (env : Env) (store : TokenStore)
    (token_id : String) (r : TokenRecord)
    (hget : store.get_token token_id = .ok r)
    (hlegacy : r.token_data = none ∨ r.token_data = some .v2) :
    validate_token env store token_id none V3ver =
      getTokenData env r.user.id (some ["password", "token"]) (some [])
        none (match r.tenant with | some p => some p.id | none => none)
        (some (.time r.expires)) none none := by
  have hval : validateV3Token env store token_id =
      getTokenData env r.user.id (some ["password", "token"]) (some [])
        none (match r.tenant with | some p => some p.id | none => none)
        (some (.time r.expires)) none none := by
    unfold validateV3Token
    rw [verifyToken_none]
    simp only [hget]
    rcases hlegacy with h | h <;> rw [h]
  rw [validate_token_v3, hval]
  cases hgt : getTokenData env r.user.id (some ["password", "token"]) (some [])
      none (match r.tenant with | some p => some p.id | none => none)
      (some (.time r.expires)) none none with
  | ok td => rfl
  | error e =>
    cases e <;>
      first
        | rfl
        | exact absurd hgt (getTokenData_ne_tnf env r.user.id
            (some ["password", "token"]) (some []) none
            (match r.tenant with | some p => some p.id | none => none)
            (some (.time r.expires)) none none)

/-- Fixture legacy record: a known user, tenant `p1`, no stored payload. -/
def recordLegacy : TokenRecord :=
  { key := "tl", id := "tl", expires := 7,
    user := { id := "utor", name := "Trustor", domain := fdomA },
    tenant := some fprojA,
    metadata := {}, token_data := none, trust_id := none }

/-- Store holding only the legacy record. -/
def storeLegacy : TokenStore := { records := [("tl", recordLegacy)],
                                  create_fails := false }

/-- Witness for C8 on the concrete legacy record. -/
theorem c8_legacy_reconstruction_witness :
    validate_token envA storeLegacy "tl" none V3ver =
      getTokenData envA "utor" (some ["password", "token"]) (some [])
        none (some "p1") (some (.time 7)) none none :=
  c8_legacy_reconstruction envA storeLegacy "tl" recordLegacy (by rfl)
    (Or.inl (by rfl))

/-- Fixture disabled trustor. -/
def userTrustorDis : UserRef :=
  { id := "utor", name := "Trustor", domain_id := "d1", enabled := false }

/-- Fixture environment in which the trustor is disabled. -/
def envDisabled : Env := { envA with users := [userTrustorDis, userTrustee] }

/-- Fixture trust with no project scope (so the roles step is skipped). -/
def trustNoProj : TrustRef := { trustA with project_id := none }

/-- Fixture filtered user carried inside prior tokens. -/
def fuserX : FilteredUser := { id := "x", name := "X", domain := fdomA }

/-- Fixture prior token that already carries a `user` field (and nothing
else). -/
def priorUser : TokenData := { user := some fuserX }

/-- The payload assembled from `priorUser` under the disabled trustor:
assembly succeeds and never even resolves the trustor. -/
def tdPriorUserOut : TokenData :=
  { user := some fuserX, expires_at := some "iso99",
    issued_at := some "2013-01-01T00:00:00.000000Z" }

/-- Counterexample to C5 as stated: with an active trust whose trustor is
disabled and a prior token that carries a `user` field but no trust block,
assembly succeeds instead of failing with the trustor-disabled `Forbidden` —
the check is skipped whenever the prior token carries a user. -/
theorem c5_trustor_disabled_counterexample :
    envDisabled.trust_enabled = true ∧
    envDisabled.get_user trustNoProj.trustor_user_id = .ok userTrustorDis ∧
    userTrustorDis.enabled = false ∧
    priorUser.os_trust = none ∧
    getTokenData envDisabled "utee" none none none none none
      (some trustNoProj) (some priorUser) = .ok tdPriorUserOut :=
  ⟨rfl, rfl, rfl, rfl, rfl⟩

/-- C5 (amended). The trustor-disabled check runs exactly when the
user-population step runs: if the prior token does not carry a `user` field
(then also no trust block can be present, since trust blocks are never
carried through), an active trust with a disabled trustor makes assembly
fail with the `Forbidden` trustor-disabled error. -/
theorem c5_trustor_disabled (env : Env) (user_id : String)
    (method_names : Option (List String)) (extras : Option Extras)
    (domain_id project_id : Option String) (expires : Option Expiry)
    (token : Option TokenData) (tr : TrustRef) (td1 : TokenData)
    (trustor : UserRef) (u : UserRef)
    (henabled : env.trust_enabled = true)
    (htrustee : user_id = tr.trustee_user_id)
    (hscope : populateScope env (initialTokenData method_names extras token)
      domain_id project_id = .ok td1)
    (husernone : td1.user = none)
    (htrustnone : td1.os_trust = none)
    (hu : env.get_user user_id = .ok u)
    (htor : env.get_user tr.trustor_user_id = .ok trustor)
    (hdis : trustor.enabled = false) :
    getTokenData env user_id method_names extras domain_id project_id expires
      (some tr) token = .error (.forbidden trustorDisabledMsg) := by
  have hcheck : trusteeCheck env user_id (some tr) = .ok () := by
    unfold trusteeCheck
    rw [henabled]
    simp [htrustee]
  have htrustStep : populateUserTrust env td1 u (some tr) =
      .error (.forbidden trustorDisabledMsg) := by
    unfold populateUserTrust
    rw [henabled, htrustnone]
    simp only [Option.isNone_none, Bool.and_self, if_true, htor, hdis,
      Bool.false_eq_true, if_false, Bool.true_and]
  have huserStep : populateUser env td1 user_id domain_id project_id
      (some tr) = .error (.forbidden trustorDisabledMsg) := by
    unfold populateUser
    rw [husernone]
    simp only [Option.isSome_none, Bool.false_eq_true, if_false, hu,
      htrustStep]
  unfold getTokenData
  simp only [hcheck, hscope, huserStep]

/-- Witness for C5 (amended): no prior token at all, disabled trustor,
active unscoped trust — assembly fails with the trustor-disabled error. -/
theorem c5_trustor_disabled_witness :
    getTokenData envDisabled "utee" none none none none none
      (some trustNoProj) none = .error (.forbidden trustorDisabledMsg) :=
  c5_trustor_disabled envDisabled "utee" none none none none none none
    trustNoProj {} userTrustorDis userTrustee (by rfl) (by rfl) (by rfl)
    (by rfl) (by rfl) (by rfl) (by rfl) (by rfl)

/-- Fixture prior token carrying a domain but no project, with user, roles,
catalog and both dates present. -/
def priorPartial : TokenData :=
  { domain := some fdomA, user := some fuserX, roles := some [roleA],
    catalog := some ([] : Catalog), issued_at := some "OLD",
    expires_at := some "OLDEXP" }

/-- Counterexample to C6 as stated: with a prior token carrying a domain but
no project, a requested project id that resolves fine is NOT populated (the
scope step skips entirely when either scope field is present), and the dates
step does not leave the prior `issued_at`/`expires_at` unchanged — both are
freshly stamped. -/
theorem c6_pipeline_noop_counterexample :
    priorPartial.domain.isSome = true ∧
    priorPartial.project = none ∧
    priorPartial.issued_at = some "OLD" ∧
    priorPartial.expires_at = some "OLDEXP" ∧
    envA.get_project "p1" = .ok projA ∧
    (getTokenData envA "utee" none none none (some "p1")
        (some (.str "EXP")) none (some priorPartial)).map TokenData.project
      = .ok none ∧
    (getTokenData envA "utee" none none none (some "p1")
        (some (.str "EXP")) none (some priorPartial)).map TokenData.issued_at
      = .ok (some "2013-01-01T00:00:00.000000Z") ∧
    (getTokenData envA "utee" none none none (some "p1")
        (some (.str "EXP")) none (some priorPartial)).map TokenData.expires_at
      = .ok (some "EXP") ∧
    some "2013-01-01T00:00:00.000000Z" ≠ some "OLD" ∧
    some "EXP" ≠ some "OLDEXP" :=
  ⟨rfl, rfl, rfl, rfl, rfl, rfl, rfl, rfl, by decide, by decide⟩

/-- C6 (amended). The user, roles and catalog steps are no-ops when their
target field is already present, leaving it exactly as supplied; the scope
step skips entirely — populating neither field — as soon as either `domain`
or `project` is present; prior `issued_at`/`expires_at` are never carried
into assembly (only roles, user, catalog, project and domain are), and the
dates step unconditionally stamps both dates. -/
theorem c6_pipeline_noop (env : Env) (td : TokenData) (user_id : String)
    (domain_id project_id : Option String) (trust : Option TrustRef)
    (expires : Option Expiry) (method_names : Option (List String))
    (extras : Option Extras) (prior : TokenData) :
    ((td.domain.isSome || td.project.isSome) = true →
      populateScope env td domain_id project_id = .ok td) ∧
    (td.user.isSome = true →
      populateUser env td user_id domain_id project_id trust = .ok td) ∧
    (td.roles.isSome = true →
      populateRoles env td user_id domain_id project_id trust = .ok td) ∧
    (td.catalog.isSome = true →
      populateServiceCatalog env td user_id domain_id project_id trust
        = td) ∧
    (populateTokenDates env td expires).issued_at = some env.now_iso ∧
    (populateTokenDates env td expires).expires_at.isSome = true ∧
    (initialTokenData method_names extras (some prior)).issued_at = none ∧
    (initialTokenData method_names extras (some prior)).expires_at = none ∧
    (initialTokenData method_names extras (some prior)).roles = prior.roles ∧
    (initialTokenData method_names extras (some prior)).user = prior.user ∧
    (initialTokenData method_names extras (some prior)).catalog
      = prior.catalog ∧
    (initialTokenData method_names extras (some prior)).project
      = prior.project ∧
    (initialTokenData method_names extras (some prior)).domain
      = prior.domain := by
  refine ⟨?_, ?_, ?_, ?_, ?_, ?_, rfl, rfl, rfl, rfl, rfl, rfl, rfl⟩
  · intro h
    unfold populateScope
    rw [if_pos h]
  · intro h
    unfold populateUser
    rw [if_pos h]
  · intro h
    unfold populateRoles
    rw [if_pos h]
  · intro h
    unfold populateServiceCatalog
    rw [if_pos h]
  · exact (populateTokenDates_frame env td expires).1
  · exact (populateTokenDates_frame env td expires).2.1

/-- Witness for C6 (amended) on the concrete partially-populated prior
token. -/
theorem c6_pipeline_noop_witness :
    populateScope envA priorPartial none (some "p1") = .ok priorPartial ∧
    populateUser envA priorPartial "utee" none (some "p1") none
      = .ok priorPartial ∧
    populateRoles envA priorPartial "utee" none (some "p1") none
      = .ok priorPartial ∧
    populateServiceCatalog envA priorPartial "utee" none (some "p1") none
      = priorPartial ∧
    (populateTokenDates envA priorPartial (some (.str "EXP"))).issued_at
      = some envA.now_iso ∧
    (populateTokenDates envA priorPartial
      (some (.str "EXP"))).expires_at.isSome = true ∧
    (initialTokenData none none (some priorPartial)).issued_at = none ∧
    (initialTokenData none none (some priorPartial)).expires_at = none :=
  ⟨(c6_pipeline_noop envA priorPartial "utee" none (some "p1") none
      (some (.str "EXP")) none none priorPartial).1 (by rfl),
   (c6_pipeline_noop envA priorPartial "utee" none (some "p1") none
      (some (.str "EXP")) none none priorPartial).2.1 (by rfl),
   (c6_pipeline_noop envA priorPartial "utee" none (some "p1") none
      (some (.str "EXP")) none none priorPartial).2.2.1 (by rfl),
   (c6_pipeline_noop envA priorPartial "utee" none (some "p1") none
      (some (.str "EXP")) none none priorPartial).2.2.2.1 (by rfl),
   (c6_pipeline_noop envA priorPartial "utee" none (some "p1") none
      (some (.str "EXP")) none none priorPartial).2.2.2.2.1,
   (c6_pipeline_noop envA priorPartial "utee" none (some "p1") none
      (some (.str "EXP")) none none priorPartial).2.2.2.2.2.1,
   (c6_pipeline_noop envA priorPartial "utee" none (some "p1") none
      (some (.str "EXP")) none none priorPartial).2.2.2.2.2.2.1,
   (c6_pipeline_noop envA priorPartial "utee" none (some "p1") none
      (some (.str "EXP")) none none priorPartial).2.2.2.2.2.2.2.1⟩

/-- The assembler as the composition of its steps, given each step's
outcome. -/
theorem getTokenData_steps {env : Env} {user_id : String}
    {method_names : Option (List String)} {extras : Option Extras}
    {domain_id project_id : Option String} {expires : Option Expiry}
    {trust : Option TrustRef} {token : Option TokenData}
    {td1 td2 td3 : TokenData}
    (hcheck : trusteeCheck env user_id trust = .ok ())
    (hscope : populateScope env (initialTokenData method_names extras token)
      domain_id project_id = .ok td1)
    (huser : populateUser env td1 user_id domain_id project_id trust
      = .ok td2)
    (hroles : populateRoles env td2 user_id domain_id project_id trust
      = .ok td3) :
    getTokenData env user_id method_names extras domain_id project_id expires
        trust token =
      .ok (populateTokenDates env
        (populateServiceCatalog env td3 user_id domain_id project_id trust)
        expires) := by
  unfold getTokenData
  simp only [hcheck, hscope, huser, hroles]

/-- Counterexample to C9 as stated: an unscoped assembly yields a payload
with NO catalog field at all — not an empty catalog mapping. -/
theorem c9_catalog_counterexample :
    (getTokenData envA "utee" none none none none none none none).map
      TokenData.catalog = .ok none ∧
    (none : Option Catalog) ≠ some ([] : Catalog) :=
  ⟨rfl, by decide⟩

/-- C9 (amended). When neither a domain nor a project scope is given and no
catalog was carried in, the assembled payload has no catalog field (it is
absent, not an empty mapping); when either scope is given, the catalog field
is present, holding the fetched catalog (or an empty mapping if the backend
reports the lookup unsupported). -/
theorem c9_catalog_absent_without_scope (env : Env) (user_id : String)
    (method_names : Option (List String)) (extras : Option Extras)
    (domain_id project_id : Option String) (expires : Option Expiry)
    (trust : Option TrustRef) (token : Option TokenData)
    (td1 td2 td3 : TokenData)
    (hcheck : trusteeCheck env user_id trust = .ok ())
    (hscope : populateScope env (initialTokenData method_names extras token)
      domain_id project_id = .ok td1)
    (huser : populateUser env td1 user_id domain_id project_id trust
      = .ok td2)
    (hroles : populateRoles env td2 user_id domain_id project_id trust
      = .ok td3)
    (hcat : td3.catalog = none) :
    (strTruthy domain_id = false → strTruthy project_id = false →
      (getTokenData env user_id method_names extras domain_id project_id
        expires trust token).map TokenData.catalog = .ok none) ∧
    ((strTruthy project_id || strTruthy domain_id) = true →
      (getTokenData env user_id method_names extras domain_id project_id
        expires trust token).map TokenData.catalog =
        .ok (some (fetchedCatalog env (catalogUserId env user_id trust)
          project_id))) := by
  have hframe := (populateTokenDates_frame env
    (populateServiceCatalog env td3 user_id domain_id project_id trust)
    expires).2.2.2.2.2.2.2.2.1
  constructor
  · intro hd hp
    rw [getTokenData_steps hcheck hscope huser hroles]
    simp only [Except.map, hframe]
    unfold populateServiceCatalog
    rw [hcat]
    simp [hd, hp, hcat]
  · intro hsc
    rw [getTokenData_steps hcheck hscope huser hroles]
    simp only [Except.map, hframe]
    unfold populateServiceCatalog
    rw [hcat]
    simp [hsc]

/-- Fixture filtered trustee user. -/
def fuserTrustee : FilteredUser :=
  { id := "utee", name := "Trustee", domain := fdomA }

/-- Fixture filtered trustor user. -/
def fuserTrustor : FilteredUser :=
  { id := "utor", name := "Trustor", domain := fdomA }

/-- Unscoped assembly for the trustee: token data after the user step. -/
def tdUnscoped2 : TokenData := { user := some fuserTrustee }

/-- Witness for C9 (amended): unscoped assembly has no catalog field;
project-scoped assembly for the trustor carries one. -/
theorem c9_catalog_absent_without_scope_witness :
    (getTokenData envA "utee" none none none none none none none).map
      TokenData.catalog = .ok none ∧
    (getTokenData envA "utor" (some ["password"]) none none (some "p1")
      none none none).map TokenData.catalog =
      .ok (some (fetchedCatalog envA (catalogUserId envA "utor" none)
        (some "p1"))) :=
  ⟨(c9_catalog_absent_without_scope envA "utee" none none none none none
      none none {} tdUnscoped2 tdUnscoped2 (by rfl) (by rfl) (by rfl)
      (by rfl) (by rfl)).1 (by rfl) (by rfl),
   (c9_catalog_absent_without_scope envA "utor" (some ["password"]) none
      none (some "p1") none none none tdNoRoles1
      { methods := some ["password"], project := some fprojA,
        user := some fuserTrustor }
      { methods := some ["password"], project := some fprojA,
        user := some fuserTrustor, roles := some [roleA] }
      (by rfl) (by rfl) (by rfl) (by rfl) (by rfl)).2 (by rfl)⟩

/-- Resolving the trust when an explicit trust argument is supplied. -/
theorem resolveTrust_explicit (env : Env) (args : IssueArgs) (tr : TrustRef)
    (h : args.trust = some tr) : resolveTrust env args = .ok (some tr) := by
  unfold resolveTrust
  rw [h]

/-- Persisting an assembled payload whose expiry and user are present (and
whose roles are present whenever its project is) succeeds when the store's
create succeeds. -/
theorem persistToken_ok {env : Env} {args : IssueArgs}
    {trust : Option TrustRef} {td : TokenData} {token_id : String}
    {store : TokenStore}
    (hexp : td.expires_at.isSome = true)
    (huser : td.user.isSome = true)
    (hroles : td.project.isSome = true → td.roles.isSome = true)
    (hnofail : store.create_fails = false) :
    ∃ store2, persistToken env args trust td token_id store = .ok store2 := by
  obtain ⟨s, hexpv⟩ := Option.isSome_iff_exists.mp hexp
  obtain ⟨u, huserv⟩ := Option.isSome_iff_exists.mp huser
  cases hres : persistToken env args trust td token_id store with
  | ok s2 => exact ⟨s2, rfl⟩
  | error e =>
    exfalso
    unfold persistToken TokenStore.create_token at hres
    cases hproj : td.project with
    | some p =>
      obtain ⟨rl, hrv⟩ :=
        Option.isSome_iff_exists.mp (hroles (by rw [hproj]; rfl))
      simp only [hexpv, hproj, hrv, huserv, hnofail, Bool.false_eq_true,
        if_false] at hres
      exact Except.noConfusion hres
    | none =>
      simp only [hexpv, hproj, huserv, hnofail, Bool.false_eq_true,
        if_false] at hres
      exact Except.noConfusion hres

/-- A successful issuance is the assembled payload under the generated id
with the persisted store. -/
theorem issueV3Token_ok {env : Env} {args : IssueArgs} {store : TokenStore}
    {trust : Option TrustRef} {td : TokenData} {store2 : TokenStore}
    (htr : resolveTrust env args = .ok trust)
    (hasm : getTokenData env args.user_id args.method_names (authExtras args)
      args.domain_id args.project_id args.expires_at trust none = .ok td)
    (hp : persistToken env args trust td env.gen_id store = .ok store2) :
    issueV3Token env args store = (.ok (env.gen_id, td), store2) := by
  unfold issueV3Token
  simp only [htr, hasm, hp]

/-- Fixture trust delegating no roles at all. -/
def trustEmptyRoles : TrustRef := { trustA with roles := [] }

/-- Issuance arguments under the empty-delegation trust. -/
def argsTrustEmpty : IssueArgs :=
  { user_id := "utee", method_names := some ["password"],
    trust := some trustEmptyRoles }

/-- Counterexample to C1 as stated: under an active trust with a project
scope whose declared delegated role set is empty — a strict subset of the
trustor's roles, every declared role matching vacuously — issuance does not
succeed with that (empty) subset as the payload roles; it fails with the
empty-role authorization denial. -/
theorem c1_trust_delegated_roles_counterexample :
    (∀ t ∈ trustEmptyRoles.roles, ∃ r ∈ [roleA], r.id = t.id) ∧
    getRolesForUser envA trustEmptyRoles.trustor_user_id none
      trustEmptyRoles.project_id = .ok [roleA] ∧
    (issueV3Token envA argsTrustEmpty storeA).1 =
      .error (.unauthorized (noAccessProjectMsg "utee" "p1")) :=
  ⟨by decide, rfl, rfl⟩

/-- C1 (amended). Under an active trust with a project scope: any declared
delegated role with no id-match among the roles the trustor actually holds
on the trust's project makes issuance fail with the `Forbidden` delegation
error; if at least one role is declared and every declared role matches,
issuance succeeds and the payload's roles are exactly the matched delegated
roles (role by declared role, a matching member of the trustor's roles) —
while an empty declared set is the empty-role denial of C2, not a success. -/
theorem c1_trust_delegated_roles (env : Env) (args : IssueArgs)
    (store : TokenStore) (tr : TrustRef) (td1 td2 : TokenData)
    (rs : List Role)
    (henabled : env.trust_enabled = true)
    (htrust : args.trust = some tr)
    (hproj : strTruthy tr.project_id = true)
    (htrustee : args.user_id = tr.trustee_user_id)
    (hscope : populateScope env
      (initialTokenData args.method_names (authExtras args) none)
      args.domain_id args.project_id = .ok td1)
    (huser : populateUser env td1 args.user_id args.domain_id args.project_id
      (some tr) = .ok td2)
    (hlookup : getRolesForUser env tr.trustor_user_id none tr.project_id
      = .ok rs)
    (hnofail : store.create_fails = false) :
    ((∃ t ∈ tr.roles, ∀ r ∈ rs, r.id ≠ t.id) →
      issueV3Token env args store =
        (.error (.forbidden trusteeNoRolesMsg), store)) ∧
    (tr.roles ≠ [] → (∀ t ∈ tr.roles, ∃ r ∈ rs, r.id = t.id) →
      ∃ fr td store2,
        matchTrustRoles rs tr.roles = .ok fr ∧
        List.Forall₂ (fun f t => f.id = t.id ∧ f ∈ rs) fr tr.roles ∧
        issueV3Token env args store = (.ok (env.gen_id, td), store2) ∧
        td.roles = some fr) := by
  have hcheck : trusteeCheck env args.user_id (some tr) = .ok () := by
    unfold trusteeCheck
    rw [henabled]
    simp [htrustee]
  have htr2 : resolveTrust env args = .ok (some tr) :=
    resolveTrust_explicit env args tr htrust
  have hr2 : td2.roles = none := by
    have h1 := (populateScope_frame hscope).2.2.2.1
    have h2 := (populateUser_frame huser).2.2.2.2.1
    rw [h2, h1]
    rfl
  have heff : effectiveIds env args.user_id args.domain_id args.project_id
      (some tr) = (tr.trustor_user_id, tr.project_id, none) := by
    unfold effectiveIds
    simp [henabled]
  have hscoped : (strTruthy (none : Option String) || strTruthy tr.project_id)
      = true := by
    rw [hproj]
    simp [strTruthy]
  constructor
  · intro hex
    have hfil : filterTrustRoles env (some tr) rs =
        .error (.forbidden trusteeNoRolesMsg) := by
      unfold filterTrustRoles
      rw [henabled]
      simpa using matchTrustRoles_error hex
    have hrolesStep : populateRoles env td2 args.user_id args.domain_id
        args.project_id (some tr) = .error (.forbidden trusteeNoRolesMsg) := by
      rw [populateRoles_no_carry hr2, heff]
      exact populateRolesScoped_filter_error hscoped hlookup hfil
    have htd : getTokenData env args.user_id args.method_names
        (authExtras args) args.domain_id args.project_id args.expires_at
        (some tr) none = .error (.forbidden trusteeNoRolesMsg) := by
      unfold getTokenData
      simp only [hcheck, hscope, huser, hrolesStep]
    unfold issueV3Token
    simp only [htr2, htd]
  · intro hne hall
    obtain ⟨fr, hfr, hforall⟩ := matchTrustRoles_ok hall
    have hlen : fr.length = tr.roles.length := List.Forall₂.length_eq hforall
    have hfrne : fr.isEmpty = false := by
      cases fr with
      | nil =>
        rw [List.length_nil] at hlen
        exact absurd (List.eq_nil_of_length_eq_zero hlen.symm) hne
      | cons a l => rfl
    have hfil : filterTrustRoles env (some tr) rs = .ok fr := by
      unfold filterTrustRoles
      rw [henabled]
      simpa using hfr
    have hrolesStep : populateRoles env td2 args.user_id args.domain_id
        args.project_id (some tr) = .ok { td2 with roles := some fr } := by
      rw [populateRoles_no_carry hr2, heff]
      exact populateRolesScoped_filter_ok hscoped hlookup hfil hfrne
    have htd := @getTokenData_steps env args.user_id args.method_names
      (authExtras args) args.domain_id args.project_id args.expires_at
      (some tr) none td1 td2 _ hcheck hscope huser hrolesStep
    have hcatframe := populateServiceCatalog_frame env
      { td2 with roles := some fr } args.user_id args.domain_id
      args.project_id (some tr)
    have hdateframe := populateTokenDates_frame env
      (populateServiceCatalog env { td2 with roles := some fr } args.user_id
        args.domain_id args.project_id (some tr)) args.expires_at
    have hexp := hdateframe.2.1
    have huserS : (populateTokenDates env
        (populateServiceCatalog env { td2 with roles := some fr }
          args.user_id args.domain_id args.project_id (some tr))
        args.expires_at).user.isSome = true := by
      rw [hdateframe.2.2.2.2.1, hcatframe.2.2.1]
      exact (populateUser_frame huser).2.2.2.2.2.2.2.2
    have hrolesval : (populateTokenDates env
        (populateServiceCatalog env { td2 with roles := some fr }
          args.user_id args.domain_id args.project_id (some tr))
        args.expires_at).roles = some fr := by
      rw [hdateframe.2.2.2.2.2.2.2.1, hcatframe.2.2.2.2.2.1]
    have hrolesS : (populateTokenDates env
        (populateServiceCatalog env { td2 with roles := some fr }
          args.user_id args.domain_id args.project_id (some tr))
        args.expires_at).project.isSome = true →
        (populateTokenDates env
        (populateServiceCatalog env { td2 with roles := some fr }
          args.user_id args.domain_id args.project_id (some tr))
        args.expires_at).roles.isSome = true := by
      intro _
      rw [hrolesval]
      rfl
    obtain ⟨store2, hpersist⟩ :=
      @persistToken_ok env args (some tr) _ env.gen_id store hexp huserS
        hrolesS hnofail
    exact ⟨fr, _, store2, hfr, hforall,
      issueV3Token_ok htr2 htd hpersist, hrolesval⟩

/-- Fixture trust declaring roles `rA` and `rB` while the trustor holds only
`rA`. -/
def trustAB : TrustRef :=
  { trustA with roles := [{ id := "rA" }, { id := "rB" }] }

/-- Issuance arguments under the over-declared trust. -/
def argsTrustAB : IssueArgs :=
  { user_id := "utee", method_names := some ["password"],
    trust := some trustAB }

/-- Issuance arguments under the well-delegated trust `trustA`. -/
def argsTrustSub : IssueArgs :=
  { user_id := "utee", method_names := some ["password"],
    trust := some trustA }

/-- Token data before the user step for the trust issuances. -/
def tdTrust1 : TokenData := { methods := some ["password"] }

/-- Token data after the user step for the trust issuances. -/
def tdTrust2 : TokenData :=
  { methods := some ["password"], user := some fuserTrustee,
    os_trust := some (trustBlockOf trustA) }

/-- Witness for C1 (amended): declaring `{rA, rB}` against a trustor holding
only `{rA}` is the delegation `Forbidden`; declaring `{rA}` succeeds with
payload roles drawn from the trustor's roles, matched id by id. -/
theorem c1_trust_delegated_roles_witness :
    issueV3Token envA argsTrustAB storeA =
      (.error (.forbidden trusteeNoRolesMsg), storeA) ∧
    (∃ fr td store2,
      matchTrustRoles [roleA] trustA.roles = .ok fr ∧
      List.Forall₂ (fun f t => f.id = t.id ∧ f ∈ [roleA]) fr trustA.roles ∧
      issueV3Token envA argsTrustSub storeA =
        (.ok (envA.gen_id, td), store2) ∧
      td.roles = some fr) :=
  ⟨(c1_trust_delegated_roles envA argsTrustAB storeA trustAB tdTrust1
      tdTrust2 [roleA] (by rfl) (by rfl) (by rfl) (by rfl) (by rfl) (by rfl)
      (by rfl) (by rfl)).1 (by decide),
   (c1_trust_delegated_roles envA argsTrustSub storeA trustA tdTrust1
      tdTrust2 [roleA] (by rfl) (by rfl) (by rfl) (by rfl) (by rfl) (by rfl)
      (by rfl) (by rfl)).2 (by decide) (by decide)⟩

end Keystone
